import Mathlib

/-!
Verification of the celebrity sentiment explorer's data-reconciliation core:
the dataset loaders (`initializeTrendsCache`, `initializeSentimentCache`),
the per-index name resolvers (`findBestMatch` in the trends service and in the
sentiment service), the sentiment query surface (`fetchSentimentData`,
`getExtremeSentimentTitles`) and the grade engine
(`calculatePublicSentimentGrade`).

The embedding works over `String` as a list of characters.  JavaScript string
primitives used by the source (`toLowerCase`, `trim`, `split(/\s+/)`,
`includes`, `startsWith`, `replace(/^"|"$/g,'')`, global literal replacement)
are modelled character-by-character below with JS semantics.  Numbers are
embedded as `Int` (years) and `ℚ` (sentiment values); the grade engine's
standard deviation uses `Real.sqrt`, so its final score lives in `ℝ`.
`parseInt`/`parseFloat` results are embedded as `Option` values (`none`
standing for a missing field or a NaN parse), so loader rows carry
already-tokenised cells.
-/

/-- JS `s.toLowerCase()` (ASCII case folding, as used on the ASCII names). -/
def jsToLower (s : String) : String := String.mk (s.data.map Char.toLower)

/-- Characters counted as whitespace by the source's `trim`/`\s+`. -/
def isWsChar (c : Char) : Bool := c.isWhitespace

/-- Drop leading whitespace from a character list. -/
def dropLeadingWs : List Char → List Char
  | [] => []
  | c :: rest => if isWsChar c then dropLeadingWs rest else c :: rest

/-- JS `s.trim()`: drop leading and trailing whitespace. -/
def jsTrim (s : String) : String :=
  String.mk ((dropLeadingWs ((dropLeadingWs s.data.reverse)).reverse))

/-- JS `s.replace(/^"|"$/g, '')`: drop one leading and one trailing
double-quote character, when present. -/
def stripOuterQuotes (s : String) : String :=
  let l := s.data
  let l := match l with
    | '"' :: rest => rest
    | other => other
  let l := match l.reverse with
    | '"' :: rest => rest.reverse
    | _ => l
  String.mk l

/-- Worker for `jsSplitWs`.  `inRun = true` means the scanner is inside a
whitespace run whose leading token has already been emitted. -/
def splitWsAux : Bool → List Char → List Char → List (List Char)
  | _, [], cur => [cur.reverse]
  | inRun, c :: rest, cur =>
    if isWsChar c then
      if inRun then splitWsAux true rest []
      else cur.reverse :: splitWsAux true rest []
    else splitWsAux false rest (c :: cur)

/-- JS `s.split(/\s+/)`: split on maximal whitespace runs.  As in JS, an
empty string yields `[""]`, and leading/trailing whitespace yields empty
boundary tokens. -/
def jsSplitWs (s : String) : List String :=
  (splitWsAux false s.data []).map String.mk

/-- JS `s.includes(sub)`: contiguous substring test. -/
def jsIncludes (s sub : String) : Bool := decide (sub.data <:+: s.data)

/-- JS `s.startsWith(p)`. -/
def jsStartsWith (s p : String) : Bool := decide (p.data <+: s.data)

/-- JS `parts.join(' ')`. -/
def joinSpace : List String → String
  | [] => ""
  | [w] => w
  | w :: rest => w ++ " " ++ joinSpace rest

/-- First `some` produced by `f` along a list (models an early `return`
inside a JS `for` loop). -/
def firstSome (f : α → Option β) : List α → Option β
  | [] => none
  | a :: rest =>
    match f a with
    | some b => some b
    | none => firstSome f rest

/-! ## Name resolution stages

Both services normalise the query identically and iterate their cache's keys
in insertion order; the key lists below stand for
`Array.from(cache.keys())`. -/

/-- `name.replace(/^"|"$/g, '').trim().toLowerCase()`. -/
def normalizeName (name : String) : String :=
  jsToLower (jsTrim (stripOuterQuotes name))

/-- Stage 1: exact case-insensitive match. -/
def exactMatchStage (keys : List String) (normalizedName : String) : Option String :=
  firstSome (fun k => if jsToLower k == normalizedName then some k else none) keys

/-- Stage 2: whole-name token-reversal match (`nameParts.reverse().join(' ')`),
only attempted for multi-token names. -/
def reversedMatchStage (keys : List String) (nameParts : List String) : Option String :=
  if nameParts.length > 1 then
    let reversedName := joinSpace nameParts.reverse
    firstSome (fun k => if jsToLower k == reversedName then some k else none) keys
  else none

/-- Stage 3: subset match — every token of the query is a substring of the
candidate key (lower-cased). -/
def subsetMatchStage (keys : List String) (nameParts : List String) : Option String :=
  firstSome
    (fun k =>
      if nameParts.all (fun w => jsIncludes (jsToLower k) w) then some k else none)
    keys

/-- The trends service's fixed `commonNicknames` table, in object-literal
order. -/
def commonNicknames : List (String × List String) :=
  [("william", ["will", "bill", "billy"]),
   ("robert", ["rob", "bob", "bobby"]),
   ("richard", ["rick", "rich", "dick"]),
   ("christopher", ["chris", "topher"]),
   ("michael", ["mike", "mick", "mickey"]),
   ("james", ["jim", "jimmy"]),
   ("joseph", ["joe", "joey"]),
   ("elizabeth", ["liz", "beth", "eliza", "betsy"]),
   ("katherine", ["kate", "kathy", "katie"]),
   ("jennifer", ["jen", "jenny"]),
   ("samuel", ["sam", "sammy"]),
   ("daniel", ["dan", "danny"]),
   ("kenneth", ["ken", "kenny"]),
   ("charles", ["charlie", "chuck"]),
   ("thomas", ["tom", "tommy"]),
   ("anthony", ["tony"]),
   ("edward", ["ed", "eddie", "ted"]),
   ("donald", ["don", "donny"]),
   ("steven", ["steve"]),
   ("benjamin", ["ben", "benji"]),
   ("kanye", ["ye"]),
   ("ye", ["kanye"])]

/-- Stage 4 (trends service only): nickname expansion — substitute the first
token by each alias sharing a `commonNicknames` entry with it and retry a
substring match against the keys. -/
def nicknameStage (keys : List String) (nameParts : List String) : Option String :=
  if nameParts.length > 0 then
    let firstName := nameParts.headD ""
    firstSome
      (fun entry =>
        let fullName := entry.1
        let nicknames := entry.2
        if firstName == fullName || nicknames.contains firstName then
          firstSome
            (fun alternative =>
              if alternative == firstName then none
              else
                let alternativeSearchName := joinSpace (alternative :: nameParts.tail)
                firstSome
                  (fun k =>
                    if jsIncludes (jsToLower k) alternativeSearchName then some k
                    else none)
                  keys)
            (fullName :: nicknames)
        else none)
      commonNicknames
  else none

/-- Stage 5 (trends service only): candidate key's last whitespace token
equals the query's last token. -/
def lastNameStage (keys : List String) (nameParts : List String) : Option String :=
  if nameParts.length > 1 then
    let lastName := nameParts.getLastD ""
    firstSome
      (fun k =>
        let cachedParts := jsSplitWs (jsToLower k)
        if cachedParts.length > 0 && cachedParts.getLastD "" == lastName then some k
        else none)
      keys
  else none

/-- Stage 6 (trends service only): candidate key starts with the query's
first token followed by a space. -/
def firstNameStage (keys : List String) (nameParts : List String) : Option String :=
  if nameParts.length > 0 then
    let firstName := nameParts.headD ""
    firstSome
      (fun k =>
        if jsStartsWith (jsToLower k) (firstName ++ " ") then some k else none)
      keys
  else none

namespace TrendsService

/-- `findBestMatch` of the trends service (`part_003`), lines 217–337: the
six-stage cascade over the trends cache's keys. -/
def findBestMatch (keys : List String) (name : String) : Option String :=
  let normalizedName := normalizeName name
  let nameParts := jsSplitWs normalizedName
  match exactMatchStage keys normalizedName with
  | some k => some k
  | none =>
    match reversedMatchStage keys nameParts with
    | some k => some k
    | none =>
      match subsetMatchStage keys nameParts with
      | some k => some k
      | none =>
        match nicknameStage keys nameParts with
        | some k => some k
        | none =>
          match lastNameStage keys nameParts with
          | some k => some k
          | none => firstNameStage keys nameParts

end TrendsService

namespace SentimentService

/-- `findBestMatch` of the sentiment service (`sentimentService.ts`),
lines 222–263: only the first three stages exist there. -/
def findBestMatch (keys : List String) (name : String) : Option String :=
  let normalizedName := normalizeName name
  let nameParts := jsSplitWs normalizedName
  match exactMatchStage keys normalizedName with
  | some k => some k
  | none =>
    match reversedMatchStage keys nameParts with
    | some k => some k
    | none => subsetMatchStage keys nameParts

end SentimentService

/-! ## Sentiment dataset loading

`initializeSentimentCache` fetches a CSV from a list of candidate paths,
parses it (PapaParse, `header: true`), groups rows by celebrity name, sorts
each group ascending by year and stores the groups in the module-level
`sentimentCache` map.  Rows arrive here already tokenised: `year` and the
two float cells are `Option` values, `none` denoting a missing cell or a
NaN parse. -/

/-- One parsed CSV row of the sentiment dataset. -/
structure SentimentRow where
  name : String
  year : Option Int
  average_sentiment : Option ℚ
  most_extreme_title : String
  most_extreme_link : String
  most_extreme_sentiment : Option ℚ
  deriving DecidableEq

/-- A stored sentiment point (`SentimentDataPoint` in the source): year `x`,
sentiment `y` rescaled to [-10,10], extreme-article metadata. -/
structure SentimentDataPoint where
  x : Int
  y : ℚ
  title : String
  link : String
  extremeScore : Option ℚ
  deriving DecidableEq

namespace SentimentService

/-- Row validation and conversion (lines 89–123): skip rows with a missing
name, year or average sentiment; scale the sentiment by 10; default the
title and link to the empty string. -/
def processRow (row : SentimentRow) : Option (String × SentimentDataPoint) :=
  if row.name == "" then none
  else
    match row.year, row.average_sentiment with
    | some year, some avg =>
      some (jsTrim row.name,
        { x := year
          y := avg * 10
          title := jsTrim row.most_extreme_title
          link := jsTrim row.most_extreme_link
          extremeScore := row.most_extreme_sentiment })
    | _, _ => none

/-- Append a point to a name's group, preserving the JS `Map`'s
insertion-order key enumeration. -/
def addToGroup (groups : List (String × List SentimentDataPoint))
    (name : String) (p : SentimentDataPoint) :
    List (String × List SentimentDataPoint) :=
  match groups with
  | [] => [(name, [p])]
  | (n, ps) :: rest =>
    if n == name then (n, ps ++ [p]) :: rest
    else (n, ps) :: addToGroup rest name p

/-- `groupedData` after the row loop (lines 87–123). -/
def buildGroups (rows : List SentimentRow) : List (String × List SentimentDataPoint) :=
  rows.foldl
    (fun groups row =>
      match processRow row with
      | some (name, p) => addToGroup groups name p
      | none => groups)
    []

/-- The ascending-by-year relation used by `dataPoints.sort((a, b) => a.x - b.x)`. -/
def yearLE (a b : SentimentDataPoint) : Prop := a.x ≤ b.x

instance : DecidableRel yearLE := fun a b => Int.decLe a.x b.x

instance : IsTotal SentimentDataPoint yearLE := ⟨fun a b => Int.le_total a.x b.x⟩

instance : IsTrans SentimentDataPoint yearLE := ⟨fun _ _ _ => Int.le_trans⟩

/-- Lines 126–130: sort each group ascending by year (JS `Array.sort` is
stable; `List.insertionSort` is the stable sort with the same result). -/
def sortGroups (groups : List (String × List SentimentDataPoint)) :
    List (String × List SentimentDataPoint) :=
  groups.map (fun g => (g.1, List.insertionSort yearLE g.2))

/-- The module state after `initializeSentimentCache` runs to completion,
as a function of the fetch outcome: `none` means no candidate path
resolved, `some rows` a successful fetch parsed into `rows`.  In both
cases the cache map has already been created (line 36), so a total fetch
failure leaves `some []` — an empty but present cache. -/
def initializeSentimentCache (fetchResult : Option (List SentimentRow)) :
    Option (List (String × List SentimentDataPoint)) :=
  match fetchResult with
  | none => some []
  | some rows => some (sortGroups (buildGroups rows))

/-- `cache.get(best) || []` on the association-list embedding of the map. -/
def cacheGet (cache : List (String × List SentimentDataPoint)) (key : String) :
    List SentimentDataPoint :=
  match cache.find? (fun g => g.1 == key) with
  | some g => g.2
  | none => []

/-- `fetchSentimentData` (lines 266–315) given the post-initialization cache
state: resolve the name against the cache keys and return the stored
series (the structural `x`/`y` filter of lines 293–300 is vacuous in the
typed embedding, every stored point having numeric fields). -/
def fetchSentimentData (cacheState : Option (List (String × List SentimentDataPoint)))
    (name : String) : List SentimentDataPoint :=
  match cacheState with
  | none => []
  | some cache =>
    match findBestMatch (cache.map Prod.fst) name with
    | some best => cacheGet cache best
    | none => []

/-- An entry of `getExtremeSentimentTitles`' result. -/
structure ExtremeSentimentItem where
  year : Int
  title : String
  score : ℚ
  link : String
  deriving DecidableEq

/-- Distance of a point's extreme score from ±1
(`Math.abs(Math.abs(extremeScore) - 1)`, line 363). -/
def extremeDist (p : SentimentDataPoint) : ℚ :=
  abs (abs (p.extremeScore.getD 0) - 1)

/-- Comparator relation of the extremeness sort (line 362–366): smaller
distance from ±1 first. -/
def extremeDistLE (a b : SentimentDataPoint) : Prop := extremeDist a ≤ extremeDist b

instance : DecidableRel extremeDistLE := fun _ _ => Rat.instDecidableLe _ _

instance : IsTotal SentimentDataPoint extremeDistLE := ⟨fun _ _ => le_total _ _⟩

instance : IsTrans SentimentDataPoint extremeDistLE := ⟨fun _ _ _ => le_trans⟩

/-- `getExtremeSentimentTitles` (lines 318–378) on the post-initialization
cache state: resolve, filter to points with a title and a usable extreme
score, sort by extremeness, take the first `count`, and format. -/
def getExtremeSentimentTitles
    (cacheState : Option (List (String × List SentimentDataPoint)))
    (name : String) (count : Nat) : List ExtremeSentimentItem :=
  match cacheState with
  | none => []
  | some cache =>
    match findBestMatch (cache.map Prod.fst) name with
    | none => []
    | some best =>
      let sentimentData := cacheGet cache best
      let validData := sentimentData.filter
        (fun p => p.title ≠ "" && p.extremeScore.isSome)
      let sortedData := List.insertionSort extremeDistLE validData
      let topExtremes := sortedData.take count
      topExtremes.map
        (fun p =>
          { year := p.x
            title := p.title
            score := p.extremeScore.getD 0
            link := p.link })

end SentimentService

/-! ## Grade engine

`calculatePublicSentimentGrade` (lines 392–553).  The weighted components
are exact rational arithmetic except the volatility, whose standard
deviation needs `Real.sqrt`; the final score therefore lives in `ℝ`. -/

/-- The computed grade (`SentimentGrade` in the source); `score` is the
`Math.round`ed display value. -/
structure SentimentGrade where
  letter : String
  score : Int
  description : String

namespace SentimentService

/-- Placeholder point for the (unreachable) head/last of an empty list. -/
def dummyPoint : SentimentDataPoint := ⟨0, 0, "", "", none⟩

/-- Descending-by-year relation of `[...sentimentData].sort((a, b) => b.x - a.x)`. -/
def yearGE (a b : SentimentDataPoint) : Prop := b.x ≤ a.x

instance : DecidableRel yearGE := fun a b => Int.decLe b.x a.x

instance : IsTotal SentimentDataPoint yearGE := ⟨fun a b => Int.le_total b.x a.x⟩

instance : IsTrans SentimentDataPoint yearGE := ⟨fun _ _ _ h h' => Int.le_trans h' h⟩

/-- Line 425: sort the series newest-year first (stable). -/
def gradeSortDesc (s : List SentimentDataPoint) : List SentimentDataPoint :=
  List.insertionSort yearGE s

/-- Line 428: the stored values divided by 10, back on the [-1,1] scale,
in newest-first order. -/
def sentimentValues (s : List SentimentDataPoint) : List ℚ :=
  (gradeSortDesc s).map (fun p => p.y / 10)

/-- Lines 433–434: mean sentiment of the up-to-3 most recent years. -/
def recentSentiment (s : List SentimentDataPoint) : ℚ :=
  let recentYears := (gradeSortDesc s).take 3
  (recentYears.map (fun p => p.y / 10)).sum / recentYears.length

/-- Line 437: mean sentiment across all years. -/
def overallSentiment (s : List SentimentDataPoint) : ℚ :=
  (sentimentValues s).sum / (sentimentValues s).length

/-- Lines 441–451: endpoint slope of sentiment per year, `0` when there are
fewer than 3 points or the year span is zero. -/
def trendFactor (s : List SentimentDataPoint) : ℚ :=
  let sorted := gradeSortDesc s
  if sorted.length ≥ 3 then
    let newest := sorted.headD dummyPoint
    let oldest := sorted.getLastD dummyPoint
    let yearSpan : Int := newest.x - oldest.x
    if yearSpan ≠ 0 then (newest.y / 10 - oldest.y / 10) / (yearSpan : ℚ) else 0
  else 0

/-- Lines 455–457: population variance of the per-year sentiment. -/
def avgSquaredDiff (s : List SentimentDataPoint) : ℚ :=
  let mean := overallSentiment s
  let squaredDiffs := (sentimentValues s).map (fun v => (v - mean) ^ 2)
  squaredDiffs.sum / squaredDiffs.length

/-- Line 458: population standard deviation. -/
noncomputable def volatility (s : List SentimentDataPoint) : ℝ :=
  Real.sqrt (avgSquaredDiff s)

/-- Lines 462–468: maximum absolute extreme-article score, falling back to
the maximum absolute yearly sentiment when no extreme scores exist.  (All
folded values are non-negative, so a `0` seed matches `Math.max` on the
non-empty lists reaching this definition.) -/
def extremeness (s : List SentimentDataPoint) : ℚ :=
  let extremeSentimentValues := (gradeSortDesc s).filterMap (fun p => p.extremeScore)
  if extremeSentimentValues.length > 0 then
    extremeSentimentValues.foldl (fun m v => max m (abs v)) 0
  else
    ((sentimentValues s).map abs).foldl max 0

/-- Line 473: map a [-1,1] sentiment onto [0,100]. -/
def normalizeScore (sentiment : ℚ) : ℚ := (sentiment + 1) * 50

/-- Line 483. -/
def recentScore (s : List SentimentDataPoint) : ℚ := normalizeScore (recentSentiment s)

/-- Line 484. -/
def overallScore (s : List SentimentDataPoint) : ℚ := normalizeScore (overallSentiment s)

/-- Line 487: `50 + trendFactor * 150`. -/
def trendScore (s : List SentimentDataPoint) : ℚ := 50 + trendFactor s * 150

/-- Line 490: `100 - volatility * 75`. -/
noncomputable def volatilityScore (s : List SentimentDataPoint) : ℝ :=
  100 - volatility s * 75

/-- Line 493: `extremeness * 85`. -/
def extremenessScore (s : List SentimentDataPoint) : ℚ := extremeness s * 85

/-- Lines 496–502: the weighted sum of the five component scores
(weights 0.40 / 0.25 / 0.15 / 0.10 / 0.10). -/
noncomputable def weightedScore (s : List SentimentDataPoint) : ℝ :=
  (recentScore s : ℝ) * 0.40 + (overallScore s : ℝ) * 0.25 +
    (trendScore s : ℝ) * 0.15 + volatilityScore s * 0.10 +
    (extremenessScore s : ℝ) * 0.10

/-- Line 505: clamp to [0,100]. -/
noncomputable def finalScore (s : List SentimentDataPoint) : ℝ :=
  max 0 (min 100 (weightedScore s))

/-- Lines 508–521: the letter-grade threshold chain. -/
noncomputable def letterGrade (fs : ℝ) : String :=
  if fs ≥ 97 then "A+"
  else if fs ≥ 93 then "A"
  else if fs ≥ 90 then "A-"
  else if fs ≥ 87 then "B+"
  else if fs ≥ 83 then "B"
  else if fs ≥ 80 then "B-"
  else if fs ≥ 77 then "C+"
  else if fs ≥ 73 then "C"
  else if fs ≥ 70 then "C-"
  else if fs ≥ 67 then "D+"
  else if fs ≥ 63 then "D"
  else if fs ≥ 60 then "D-"
  else "F"

/-- Lines 527–537: the trend clause of the rationale. -/
def trendDescription (tf : ℚ) : String :=
  if tf > 0.05 then " Public perception has been significantly improving over time."
  else if tf > 0.01 then " Public perception has been gradually improving over time."
  else if tf < -0.05 then " Public perception has been declining significantly over time."
  else if tf < -0.01 then " Public perception has been gradually declining over time."
  else " Public perception has remained relatively stable over time."

/-- Lines 540–546: the volatility clause of the rationale. -/
noncomputable def volatilityDescription (v : ℝ) : String :=
  if v > 0.6 then " Public opinion is highly volatile with dramatic shifts."
  else if v > 0.3 then " Public opinion shows moderate volatility."
  else " Public opinion shows consistent stability."

/-- Lines 524–546: the assembled rationale string. -/
noncomputable def gradeDescription (s : List SentimentDataPoint) : String :=
  "Public sentiment grade based on " ++ toString (gradeSortDesc s).length ++
    " years of data." ++ trendDescription (trendFactor s) ++
    volatilityDescription (volatility s)

/-- Lines 424–552: the grade computed from a non-empty series. -/
noncomputable def gradeOfSeries (s : List SentimentDataPoint) : SentimentGrade :=
  { letter := letterGrade (finalScore s)
    score := round (finalScore s)
    description := gradeDescription s }

/-- Lines 398–403: the fixed neutral default grade. -/
def defaultGrade : SentimentGrade :=
  { letter := "C"
    score := 70
    description := "Average public sentiment rating based on limited data." }

/-- `calculatePublicSentimentGrade` (lines 392–553) on the
post-initialization cache state. -/
noncomputable def calculatePublicSentimentGrade
    (cacheState : Option (List (String × List SentimentDataPoint)))
    (name : String) : SentimentGrade :=
  match cacheState with
  | none => defaultGrade
  | some cache =>
    match findBestMatch (cache.map Prod.fst) name with
    | none => defaultGrade
    | some bestMatch =>
      let sentimentData := cacheGet cache bestMatch
      if sentimentData.length = 0 then defaultGrade
      else gradeOfSeries sentimentData

end SentimentService

/-! ## Trends dataset loading

`initializeTrendsCache` (`part_003`, lines 10–214): fetch the CSV from
candidate paths, and for each row decode the JSON-encoded `trends_data`
cell — strip wrapping quotes, undo escaped/doubled quotes, `JSON.parse`,
and on failure retry after a regex repair pass; a row whose decodes all
fail is stored with an empty series.  `JSON.parse` is embedded as a parser
for the data's point-array grammar `[\x7b"x": int, "y": int\x7d, ...]`
(integer numbers); any other JSON text is out of the grammar and decodes
to `none`, as every failing cell in scope does under `JSON.parse`. -/

/-- A decoded trends point (`DataPoint`): year `x`, popularity `y`. -/
structure TrendDataPoint where
  x : Int
  y : Int
  deriving DecidableEq

/-- One parsed CSV row of the trends dataset (`none` = missing cell). -/
structure TrendsRow where
  name : String
  trends_data : Option String
  deriving DecidableEq

/-- JS `s.replace(/ab/g, rep)` for a two-character literal pattern:
left-to-right, non-overlapping, replacements not rescanned. -/
def replace2 (a b : Char) (rep : List Char) : List Char → List Char
  | [] => []
  | [c] => [c]
  | c :: d :: rest =>
    if c = a && d = b then rep ++ replace2 a b rep rest
    else c :: replace2 a b rep (d :: rest)

/-- JS `s.replace(/abc/g, rep)` for a three-character literal pattern. -/
def replace3 (a b c : Char) (rep : List Char) : List Char → List Char
  | [] => []
  | [d] => [d]
  | [d, e] => [d, e]
  | d :: e :: f :: rest =>
    if d = a && e = b && f = c then rep ++ replace3 a b c rep rest
    else d :: replace3 a b c rep (e :: f :: rest)

/-- Try to consume `\s*""` from the front of a list, returning the rest. -/
def stripWsQuotePair (l : List Char) : Option (List Char) :=
  match dropLeadingWs l with
  | '"' :: '"' :: rest => some rest
  | _ => none

/-- JS `s.replace(/(\{|,)\s*""/g, '$1"')` (fuel-driven scanner; the fuel is
instantiated with the list length, enough for the whole scan). -/
def fixQuoteAfterBrace (fuel : Nat) (l : List Char) : List Char :=
  match fuel, l with
  | 0, rest => rest
  | _ + 1, [] => []
  | fuel + 1, c :: rest =>
    if c = '\x7b' || c = ',' then
      match stripWsQuotePair rest with
      | some rest' => c :: '"' :: fixQuoteAfterBrace fuel rest'
      | none => c :: fixQuoteAfterBrace fuel rest
    else c :: fixQuoteAfterBrace fuel rest

/-- Consume the digits of a decimal numeral. -/
def parseNatAux : List Char → Nat → Nat × List Char
  | [], acc => (acc, [])
  | c :: rest, acc =>
    if c.isDigit then parseNatAux rest (acc * 10 + (c.toNat - 48))
    else (acc, c :: rest)

/-- Parse a JSON integer (optional sign, at least one digit). -/
def parseIntLit : List Char → Option (Int × List Char)
  | '-' :: rest =>
    match rest with
    | c :: _ =>
      if c.isDigit then
        let r := parseNatAux rest 0
        some (-(r.1 : Int), r.2)
      else none
    | [] => none
  | l =>
    match l with
    | c :: _ =>
      if c.isDigit then
        let r := parseNatAux l 0
        some ((r.1 : Int), r.2)
      else none
    | [] => none

/-- Expect one exact character. -/
def expectChar (c : Char) : List Char → Option (List Char)
  | d :: rest => if d = c then some rest else none
  | [] => none

/-- Parse one `\x7b"x": int, "y": int\x7d` object. -/
def parsePointObj (l : List Char) : Option (TrendDataPoint × List Char) :=
  match expectChar '\x7b' l with
  | none => none
  | some r1 =>
    match expectChar '"' (dropLeadingWs r1) with
    | none => none
    | some r2 =>
      match expectChar 'x' r2 with
      | none => none
      | some r3 =>
        match expectChar '"' r3 with
        | none => none
        | some r4 =>
          match expectChar ':' (dropLeadingWs r4) with
          | none => none
          | some r5 =>
            match parseIntLit (dropLeadingWs r5) with
            | none => none
            | some (xv, r6) =>
              match expectChar ',' (dropLeadingWs r6) with
              | none => none
              | some r7 =>
                match expectChar '"' (dropLeadingWs r7) with
                | none => none
                | some r8 =>
                  match expectChar 'y' r8 with
                  | none => none
                  | some r9 =>
                    match expectChar '"' r9 with
                    | none => none
                    | some r10 =>
                      match expectChar ':' (dropLeadingWs r10) with
                      | none => none
                      | some r11 =>
                        match parseIntLit (dropLeadingWs r11) with
                        | none => none
                        | some (yv, r12) =>
                          match expectChar '\x7d' (dropLeadingWs r12) with
                          | none => none
                          | some r13 => some (⟨xv, yv⟩, r13)

/-- Parse a comma-separated non-empty sequence of point objects. -/
def parsePointList (fuel : Nat) (l : List Char) : Option (List TrendDataPoint × List Char) :=
  match fuel with
  | 0 => none
  | fuel + 1 =>
    match parsePointObj l with
    | none => none
    | some (p, rest) =>
      match expectChar ',' (dropLeadingWs rest) with
      | some rest' =>
        match parsePointList fuel (dropLeadingWs rest') with
        | some (ps, rem) => some (p :: ps, rem)
        | none => none
      | none => some ([p], rest)

/-- `JSON.parse` restricted to the trends cells' point-array grammar:
a whole-string JSON array of `\x7b"x": int, "y": int\x7d` objects. -/
def parsePointsJson (s : String) : Option (List TrendDataPoint) :=
  match expectChar '[' (dropLeadingWs s.data) with
  | none => none
  | some r1 =>
    match dropLeadingWs r1 with
    | ']' :: r2 => if dropLeadingWs r2 = [] then some [] else none
    | body =>
      match parsePointList body.length body with
      | none => none
      | some (pts, rem) =>
        match expectChar ']' (dropLeadingWs rem) with
        | some r3 => if dropLeadingWs r3 = [] then some pts else none
        | none => none

namespace TrendsService

/-- Lines 73–113: normalise a `trends_data` cell (trim, strip symmetric
wrapping quotes, unescape `\"`, collapse doubled quotes), try `JSON.parse`,
and on failure retry once after the four regex repairs of lines 98–102. -/
def decodeTrendsCell (cell : String) : Option (List TrendDataPoint) :=
  let jsonString := (jsTrim cell).data
  let jsonString :=
    if jsonString.head? = some '"' && jsonString.getLast? = some '"' then
      (jsonString.drop 1).dropLast
    else jsonString
  let jsonString := replace2 '\\' '"' ['"'] jsonString
  let jsonString := replace2 '"' '"' ['"'] jsonString
  match parsePointsJson (String.mk jsonString) with
  | some trendsData => some trendsData
  | none =>
    let fixedJson := fixQuoteAfterBrace jsonString.length jsonString
    let fixedJson := replace3 '"' '"' ':' ['"', ':'] fixedJson
    let fixedJson := replace2 '"' '\x7b' ['\x7b'] fixedJson
    let fixedJson := replace2 '\x7d' '"' ['\x7d'] fixedJson
    parsePointsJson (String.mk fixedJson)

/-- JS `Map.set`: replace the value of an existing key in place, else
append a new key. -/
def cacheSet (cache : List (String × List TrendDataPoint)) (k : String)
    (v : List TrendDataPoint) : List (String × List TrendDataPoint) :=
  match cache with
  | [] => [(k, v)]
  | (n, ps) :: rest =>
    if n == k then (n, v) :: rest else (n, ps) :: cacheSet rest k v

/-- Lines 64–125: process one CSV row — skip rows with a missing/empty name
or cell; otherwise store the decoded series, or an empty series when every
decode attempt failed. -/
def processTrendsRow (cache : List (String × List TrendDataPoint))
    (row : TrendsRow) : List (String × List TrendDataPoint) :=
  if row.name == "" || row.trends_data.getD "" == "" then cache
  else
    let cleanName := jsTrim (stripOuterQuotes row.name)
    match decodeTrendsCell (row.trends_data.getD "") with
    | some trendsData => cacheSet cache cleanName trendsData
    | none => cacheSet cache cleanName []

/-- The module state after `initializeTrendsCache` runs to completion, as a
function of the fetch outcome (`none` = no candidate path resolved).  As in
the sentiment loader, the cache map is created before the fetch (line 14),
so total failure leaves an empty but present cache. -/
def initializeTrendsCache (fetchResult : Option (List TrendsRow)) :
    Option (List (String × List TrendDataPoint)) :=
  match fetchResult with
  | none => some []
  | some rows => some (rows.foldl processTrendsRow [])

end TrendsService

/-! ## Initialization as a state machine

Both services guard initialization with `if (cache) return;` on the
module-level cache variable and otherwise run the load exactly once,
leaving the cache non-null whatever the outcome.  `loads` counts how many
times the underlying fetch-and-parse has run. -/

/-- Module state of one service: the cache variable plus a counter of
performed loads. -/
structure LoaderState (κ : Type) where
  cache : Option κ
  loads : Nat
  deriving DecidableEq

/-- One invocation of an `initialize*Cache` function, run to completion
with fetch outcome `outcome`: a no-op when the cache is already set
(line 11 / line 33), otherwise one load whose result (empty on failure)
becomes the cache. -/
def initStep (build : Option ρ → Option κ) (s : LoaderState κ)
    (outcome : Option ρ) : LoaderState κ :=
  if s.cache.isSome then s
  else { cache := build outcome, loads := s.loads + 1 }

/-! ## Theorems -/

/-- Helper: if the three-stage sentiment cascade succeeds, the six-stage
trends cascade on the same key set returns the same key (the two cascades
share their first three stages verbatim). -/
theorem trends_cascade_extends_sentiment (keys : List String) (name r : String)
    (h : SentimentService.findBestMatch keys name = some r) :
    TrendsService.findBestMatch keys name = some r := by
  unfold SentimentService.findBestMatch at h
  unfold TrendsService.findBestMatch
  cases he : exactMatchStage keys (normalizeName name) with
  | some k => simp only [he] at h ⊢; exact h
  | none =>
    cases hr : reversedMatchStage keys (jsSplitWs (normalizeName name)) with
    | some k => simp only [he, hr] at h ⊢; exact h
    | none =>
      simp only [he, hr] at h ⊢
      simp only [h]

/-- C1: the two services do NOT apply the same cascade: the sentiment
service's `findBestMatch` stops after the subset stage, so an input that
only a later stage can resolve (here `"john smith"` against the key
`"Will Smith"`, resolvable only by the last-token stage) resolves in the
trends index but not in the sentiment index. -/
theorem C1_counterexample_cascades_differ :
    TrendsService.findBestMatch ["Will Smith"] "john smith" = some "Will Smith" ∧
    SentimentService.findBestMatch ["Will Smith"] "john smith" = none ∧
    lastNameStage ["Will Smith"] (jsSplitWs (normalizeName "john smith")) =
      some "Will Smith" := by
  refine ⟨by decide, by decide, by decide⟩

/-- C1 (amended): both resolvers share stages 1–3 (exact, token-reversal,
subset), applied per index in the same order with the first hit winning;
the trends resolver alone continues with the nickname, last-token and
first-token-prefix stages, so a name resolvable only by stages 4–6
resolves in the trends index but not in the sentiment index, while any
sentiment-side resolution is reproduced verbatim by the trends resolver on
the same key set. -/
theorem C1_sentiment_resolution_implies_trends (keys : List String) (name r : String)
    (h : SentimentService.findBestMatch keys name = some r) :
    TrendsService.findBestMatch keys name = some r :=
  trends_cascade_extends_sentiment keys name r h

/-- C1 witness: the amended theorem applied at the reversed-key example. -/
theorem C1_sentiment_resolution_implies_trends_witness :
    TrendsService.findBestMatch ["West Kanye"] "Kanye West" = some "West Kanye" :=
  C1_sentiment_resolution_implies_trends ["West Kanye"] "Kanye West" "West Kanye"
    (by decide)

namespace SentimentService

/-- The 2020 row of the C2 scenario (`average_sentiment = -0.4`,
`most_extreme_sentiment = -0.9`). -/
def kanyeRow2020 : SentimentRow :=
  ⟨"West Kanye", some 2020, some (-0.4), "title A", "", some (-0.9)⟩

/-- The 2022 row of the C2 scenario (`average_sentiment = 0.6`,
`most_extreme_sentiment = 0.95`). -/
def kanyeRow2022 : SentimentRow :=
  ⟨"West Kanye", some 2022, some 0.6, "title B", "", some 0.95⟩

end SentimentService

/-- C2: with the sentiment cache loaded from the two `"West Kanye"` rows
(fed newest-first, so the year sort matters), fetching `"Kanye West"`
fails the exact stage, resolves at the token-reversal stage, and returns
the two points ascending by year with sentiments rescaled by 10
(`-0.4 ↦ -4`, `0.6 ↦ 6`). -/
theorem C2_kanye_west_token_reversal_series :
    exactMatchStage ["West Kanye"] (normalizeName "Kanye West") = none ∧
    reversedMatchStage ["West Kanye"] (jsSplitWs (normalizeName "Kanye West")) =
      some "West Kanye" ∧
    SentimentService.fetchSentimentData
        (SentimentService.initializeSentimentCache
          (some [SentimentService.kanyeRow2022, SentimentService.kanyeRow2020]))
        "Kanye West" =
      [⟨2020, -4, "title A", "", some (-0.9)⟩, ⟨2022, 6, "title B", "", some 0.95⟩] := by
  refine ⟨by decide, by decide, ?_⟩
  have h1 : SentimentService.processRow SentimentService.kanyeRow2020 =
      some ("West Kanye", ⟨2020, -4, "title A", "", some (-0.9)⟩) := by
    norm_num [SentimentService.processRow, SentimentService.kanyeRow2020, jsTrim,
      dropLeadingWs, isWsChar]
    decide
  have h2 : SentimentService.processRow SentimentService.kanyeRow2022 =
      some ("West Kanye", ⟨2022, 6, "title B", "", some 0.95⟩) := by
    norm_num [SentimentService.processRow, SentimentService.kanyeRow2022, jsTrim,
      dropLeadingWs, isWsChar]
    decide
  have hb : SentimentService.buildGroups
      [SentimentService.kanyeRow2022, SentimentService.kanyeRow2020] =
      [("West Kanye",
        [⟨2022, 6, "title B", "", some 0.95⟩, ⟨2020, -4, "title A", "", some (-0.9)⟩])] := by
    simp [SentimentService.buildGroups, h1, h2, SentimentService.addToGroup]
  have hm : SentimentService.findBestMatch ["West Kanye"] "Kanye West" =
      some "West Kanye" := by decide
  simp [SentimentService.fetchSentimentData, SentimentService.initializeSentimentCache, hb,
    SentimentService.sortGroups, List.insertionSort, List.orderedInsert,
    SentimentService.yearLE, hm, SentimentService.cacheGet]

/-- C3: whenever sentiment data is missing — the cache failed to
initialize, no canonical key matches, or the matched series is empty —
the grade is exactly the fixed neutral default (`C`, 70, the generic
rationale); the function is total, and as a pure function of the cache
state and name it trivially returns identical grades on identical calls
(the second conjunct). -/
theorem C3_missing_data_yields_default
    (cacheState : Option (List (String × List SentimentDataPoint))) (name : String)
    (h : cacheState = none ∨
      (∃ cache, cacheState = some cache ∧
        SentimentService.findBestMatch (cache.map Prod.fst) name = none) ∨
      (∃ cache best, cacheState = some cache ∧
        SentimentService.findBestMatch (cache.map Prod.fst) name = some best ∧
        SentimentService.cacheGet cache best = [])) :
    SentimentService.calculatePublicSentimentGrade cacheState name =
        SentimentService.defaultGrade ∧
      SentimentService.calculatePublicSentimentGrade cacheState name =
        SentimentService.calculatePublicSentimentGrade cacheState name := by
  refine ⟨?_, rfl⟩
  rcases h with h | ⟨cache, hc, hm⟩ | ⟨cache, best, hc, hm, he⟩
  · simp [h, SentimentService.calculatePublicSentimentGrade]
  · simp [hc, SentimentService.calculatePublicSentimentGrade, hm]
  · simp [hc, SentimentService.calculatePublicSentimentGrade, hm, he]

/-- C3 witness: a cache holding only `"Taylor Swift"` with an empty series
grades `"Taylor Swift"` with the default grade via the empty-series case. -/
theorem C3_missing_data_yields_default_witness :
    SentimentService.calculatePublicSentimentGrade (some [("Taylor Swift", [])])
        "Taylor Swift" = SentimentService.defaultGrade ∧
      SentimentService.calculatePublicSentimentGrade (some [("Taylor Swift", [])])
          "Taylor Swift" =
        SentimentService.calculatePublicSentimentGrade (some [("Taylor Swift", [])])
          "Taylor Swift" :=
  C3_missing_data_yields_default (some [("Taylor Swift", [])]) "Taylor Swift"
    (Or.inr (Or.inr ⟨[("Taylor Swift", [])], "Taylor Swift", rfl, by decide, rfl⟩))

/-- C4: for any non-empty series, the displayed score is the weighted sum
(weights 0.40 recency, 0.25 overall, 0.15 trend, 0.10 volatility, 0.10
extremeness) clamped to [0,100] and rounded, and the letter is chosen from
the clamped (pre-rounding) score by the fixed inclusive thresholds
97/93/90/87/83/80/77/73/70/67/63/60. -/
theorem C4_weighted_score_and_letter_thresholds (s : List SentimentDataPoint)
    (_h : s ≠ []) :
    (SentimentService.gradeOfSeries s).score =
      round (max 0 (min 100
        ((SentimentService.recentScore s : ℝ) * 0.40 +
          (SentimentService.overallScore s : ℝ) * 0.25 +
          (SentimentService.trendScore s : ℝ) * 0.15 +
          (100 - SentimentService.volatility s * 75) * 0.10 +
          (SentimentService.extremenessScore s : ℝ) * 0.10))) ∧
    (SentimentService.gradeOfSeries s).letter =
      (if SentimentService.finalScore s ≥ 97 then "A+"
       else if SentimentService.finalScore s ≥ 93 then "A"
       else if SentimentService.finalScore s ≥ 90 then "A-"
       else if SentimentService.finalScore s ≥ 87 then "B+"
       else if SentimentService.finalScore s ≥ 83 then "B"
       else if SentimentService.finalScore s ≥ 80 then "B-"
       else if SentimentService.finalScore s ≥ 77 then "C+"
       else if SentimentService.finalScore s ≥ 73 then "C"
       else if SentimentService.finalScore s ≥ 70 then "C-"
       else if SentimentService.finalScore s ≥ 67 then "D+"
       else if SentimentService.finalScore s ≥ 63 then "D"
       else if SentimentService.finalScore s ≥ 60 then "D-"
       else "F") ∧
    SentimentService.finalScore s = max 0 (min 100
      ((SentimentService.recentScore s : ℝ) * 0.40 +
        (SentimentService.overallScore s : ℝ) * 0.25 +
        (SentimentService.trendScore s : ℝ) * 0.15 +
        (100 - SentimentService.volatility s * 75) * 0.10 +
        (SentimentService.extremenessScore s : ℝ) * 0.10)) :=
  ⟨rfl, rfl, rfl⟩

namespace SentimentService

/-- A neutral single-point series used to witness C4: zero sentiment and a
zero extreme score give an exactly-computable final score of 50. -/
def p0 : SentimentDataPoint := ⟨2020, 0, "", "", some 0⟩

end SentimentService

/-- C4 witness: applying the theorem to the singleton series `[p0]` and
evaluating gives score 50 and letter `F`. -/
theorem C4_weighted_score_and_letter_thresholds_witness :
    (SentimentService.gradeOfSeries [SentimentService.p0]).score = 50 ∧
    (SentimentService.gradeOfSeries [SentimentService.p0]).letter = "F" := by
  obtain ⟨hs, hl, hf⟩ :=
    C4_weighted_score_and_letter_thresholds [SentimentService.p0] (by simp)
  have hv : SentimentService.finalScore [SentimentService.p0] = 50 := by
    norm_num [SentimentService.finalScore, SentimentService.weightedScore,
      SentimentService.recentScore, SentimentService.overallScore,
      SentimentService.trendScore, SentimentService.volatilityScore,
      SentimentService.extremenessScore, SentimentService.recentSentiment,
      SentimentService.overallSentiment, SentimentService.trendFactor,
      SentimentService.volatility, SentimentService.avgSquaredDiff,
      SentimentService.sentimentValues, SentimentService.extremeness,
      SentimentService.gradeSortDesc, List.insertionSort, List.filterMap_cons,
      List.filterMap_nil, SentimentService.normalizeScore, SentimentService.p0,
      Real.sqrt_zero]
  constructor
  · rw [hs, ← hf, hv]
    norm_num [round_eq]
  · rw [hl, hv]
    norm_num

namespace SentimentService

/-- Helper: in a list whose years are pairwise distinct and which has at
least two elements, the first and last years differ. -/
theorem headD_x_ne_getLastD_x (l : List SentimentDataPoint)
    (hlen : 2 ≤ l.length)
    (hp : (l.map SentimentDataPoint.x).Pairwise (fun a b => a ≠ b)) :
    (l.headD dummyPoint).x ≠ (l.getLastD dummyPoint).x := by
  match l with
  | [] => simp at hlen
  | [a] => simp at hlen
  | a :: b :: t =>
    have hne : (b :: t) ≠ [] := by simp
    have hlast : (a :: b :: t).getLastD dummyPoint = (b :: t).getLast hne := by
      rw [List.getLastD_cons, List.getLastD_eq_getLast?,
        List.getLast?_eq_getLast (b :: t) hne]
      rfl
    have hmem : (b :: t).getLast hne ∈ b :: t := List.getLast_mem hne
    rw [List.map_cons, List.pairwise_cons] at hp
    have := hp.1 (((b :: t).getLast hne).x) (List.mem_map_of_mem _ hmem)
    simpa [hlast] using this

end SentimentService

/-- C5: for a 5-point series with pairwise-distinct years whose normalized
endpoint slope (newest-year minus oldest-year sentiment on the [-1,1]
scale, divided by the year span) is below -0.05, the trend component score
`50 + slope * 150` is strictly below 50 and the grade's rationale contains
the "declining significantly" clause. -/
theorem C5_declining_series_rationale_and_trend (s : List SentimentDataPoint)
    (h5 : s.length = 5)
    (hdist : (s.map SentimentDataPoint.x).Pairwise (fun a b => a ≠ b))
    (hslope : (((SentimentService.gradeSortDesc s).headD SentimentService.dummyPoint).y / 10 -
        ((SentimentService.gradeSortDesc s).getLastD SentimentService.dummyPoint).y / 10) /
        ((((SentimentService.gradeSortDesc s).headD SentimentService.dummyPoint).x -
          ((SentimentService.gradeSortDesc s).getLastD SentimentService.dummyPoint).x : Int) : ℚ) <
        -0.05) :
    SentimentService.trendScore s < 50 ∧
    ∃ s1 s2, (SentimentService.gradeOfSeries s).description =
      s1 ++ " Public perception has been declining significantly over time." ++ s2 := by
  have hlen : (SentimentService.gradeSortDesc s).length = 5 := by
    rw [SentimentService.gradeSortDesc, List.length_insertionSort]; exact h5
  have hperm : List.Perm (SentimentService.gradeSortDesc s) s :=
    List.perm_insertionSort _ s
  have hmap : ((SentimentService.gradeSortDesc s).map SentimentDataPoint.x).Pairwise
      (fun a b => a ≠ b) :=
    ((hperm.map SentimentDataPoint.x).pairwise_iff (fun h => h.symm)).mpr hdist
  have hspan : ((SentimentService.gradeSortDesc s).headD SentimentService.dummyPoint).x ≠
      ((SentimentService.gradeSortDesc s).getLastD SentimentService.dummyPoint).x :=
    SentimentService.headD_x_ne_getLastD_x _ (by omega) hmap
  have htf : SentimentService.trendFactor s =
      (((SentimentService.gradeSortDesc s).headD SentimentService.dummyPoint).y / 10 -
        ((SentimentService.gradeSortDesc s).getLastD SentimentService.dummyPoint).y / 10) /
        ((((SentimentService.gradeSortDesc s).headD SentimentService.dummyPoint).x -
          ((SentimentService.gradeSortDesc s).getLastD SentimentService.dummyPoint).x : Int) : ℚ) := by
    rw [SentimentService.trendFactor]
    rw [if_pos (by omega : (SentimentService.gradeSortDesc s).length ≥ 3)]
    show (if (((SentimentService.gradeSortDesc s).headD SentimentService.dummyPoint).x -
          ((SentimentService.gradeSortDesc s).getLastD SentimentService.dummyPoint).x : Int) ≠ 0 then
        (((SentimentService.gradeSortDesc s).headD SentimentService.dummyPoint).y / 10 -
          ((SentimentService.gradeSortDesc s).getLastD SentimentService.dummyPoint).y / 10) /
          ((((SentimentService.gradeSortDesc s).headD SentimentService.dummyPoint).x -
            ((SentimentService.gradeSortDesc s).getLastD SentimentService.dummyPoint).x : Int) : ℚ)
      else 0) = _
    rw [if_pos (sub_ne_zero.mpr hspan)]
  have h4 : SentimentService.trendFactor s < -0.05 := by rw [htf]; exact hslope
  constructor
  · have hneg : SentimentService.trendFactor s * 150 < 0 :=
      mul_neg_of_neg_of_pos (by linarith) (by norm_num)
    rw [SentimentService.trendScore]
    linarith
  · have htd : SentimentService.trendDescription (SentimentService.trendFactor s) =
        " Public perception has been declining significantly over time." := by
      rw [SentimentService.trendDescription]
      rw [if_neg (by push_neg; linarith), if_neg (by push_neg; linarith), if_pos h4]
    refine ⟨"Public sentiment grade based on " ++
      toString (SentimentService.gradeSortDesc s).length ++ " years of data.",
      SentimentService.volatilityDescription (SentimentService.volatility s), ?_⟩
    show SentimentService.gradeDescription s = _
    rw [SentimentService.gradeDescription, htd]

namespace SentimentService

/-- A strictly declining 5-year series (stored scale): sentiment falls
from 0.8 in 2018 to 0.1 in 2022, endpoint slope -0.175. -/
def s5 : List SentimentDataPoint :=
  [⟨2018, 8, "", "", none⟩, ⟨2019, 6, "", "", none⟩, ⟨2020, 4, "", "", none⟩,
   ⟨2021, 2, "", "", none⟩, ⟨2022, 1, "", "", none⟩]

end SentimentService

/-- C5 witness: the theorem applied to the concrete declining series. -/
theorem C5_declining_series_rationale_and_trend_witness :
    SentimentService.trendScore SentimentService.s5 < 50 ∧
    ∃ s1 s2, (SentimentService.gradeOfSeries SentimentService.s5).description =
      s1 ++ " Public perception has been declining significantly over time." ++ s2 := by
  refine C5_declining_series_rationale_and_trend SentimentService.s5 rfl (by decide) ?_
  have hsort : SentimentService.gradeSortDesc SentimentService.s5 =
      [⟨2022, 1, "", "", none⟩, ⟨2021, 2, "", "", none⟩, ⟨2020, 4, "", "", none⟩,
       ⟨2019, 6, "", "", none⟩, ⟨2018, 8, "", "", none⟩] := by decide
  rw [hsort]
  norm_num

namespace SentimentService

/-- The points contributed to `name`'s group by the valid rows, in input
order (the loop of lines 89–123 restricted to one name). -/
def rowPointsFor (rows : List SentimentRow) (name : String) : List SentimentDataPoint :=
  rows.filterMap
    (fun row =>
      match processRow row with
      | some (n, p) => if n == name then some p else none
      | none => none)

theorem cacheGet_nil (name : String) : cacheGet [] name = [] := rfl

theorem cacheGet_cons (a : String) (ps : List SentimentDataPoint)
    (rest : List (String × List SentimentDataPoint)) (name : String) :
    cacheGet ((a, ps) :: rest) name = if a == name then ps else cacheGet rest name := by
  unfold cacheGet
  by_cases h : (a == name) = true
  · rw [@List.find?_cons_of_pos _ (fun g : String × List SentimentDataPoint => g.1 == name)
      (a, ps) rest h]
    simp [h]
  · rw [@List.find?_cons_of_neg _ (fun g : String × List SentimentDataPoint => g.1 == name)
      (a, ps) rest h]
    simp [h]

theorem cacheGet_addToGroup (groups : List (String × List SentimentDataPoint))
    (n : String) (p : SentimentDataPoint) (name : String) :
    cacheGet (addToGroup groups n p) name =
      if n == name then cacheGet groups name ++ [p] else cacheGet groups name := by
  induction groups with
  | nil =>
    simp only [addToGroup, cacheGet_cons, cacheGet_nil]
    by_cases h : n = name <;> simp [h]
  | cons g rest ih =>
    obtain ⟨gn, gps⟩ := g
    by_cases h1 : gn = n
    · subst h1
      simp only [addToGroup, beq_self_eq_true, if_true, cacheGet_cons]
      by_cases h2 : gn = name <;> simp [h2, cacheGet_cons]
    · have h1b : (gn == n) = false := by simpa using h1
      simp only [addToGroup, h1b, Bool.false_eq_true, if_false, cacheGet_cons, ih]
      by_cases h2 : gn = name
      · subst h2
        have h3 : (n == gn) = false := by simpa using fun e => h1 e.symm
        simp [h3]
      · have h2b : (gn == name) = false := by simpa using h2
        simp [h2b]

theorem cacheGet_foldl_processRow (rows : List SentimentRow)
    (groups : List (String × List SentimentDataPoint)) (name : String) :
    cacheGet
        (rows.foldl
          (fun gs row =>
            match processRow row with
            | some (n, p) => addToGroup gs n p
            | none => gs)
          groups) name =
      cacheGet groups name ++ rowPointsFor rows name := by
  induction rows generalizing groups with
  | nil => simp [rowPointsFor]
  | cons r rest ih =>
    simp only [List.foldl_cons]
    cases hr : processRow r with
    | none => simp [ih, rowPointsFor, List.filterMap_cons, hr]
    | some np =>
      obtain ⟨n, p⟩ := np
      by_cases h : n = name
      · subst h
        simp [ih, cacheGet_addToGroup, rowPointsFor, List.filterMap_cons, hr]
      · have hb : (n == name) = false := by simpa using h
        simp [ih, cacheGet_addToGroup, rowPointsFor, List.filterMap_cons, hr, hb, h]

theorem cacheGet_buildGroups (rows : List SentimentRow) (name : String) :
    cacheGet (buildGroups rows) name = rowPointsFor rows name := by
  have := cacheGet_foldl_processRow rows [] name
  simpa [buildGroups, cacheGet_nil] using this

theorem cacheGet_sortGroups (groups : List (String × List SentimentDataPoint))
    (name : String) :
    cacheGet (sortGroups groups) name = List.insertionSort yearLE (cacheGet groups name) := by
  induction groups with
  | nil => simp [sortGroups, cacheGet_nil]
  | cons g rest ih =>
    obtain ⟨gn, gps⟩ := g
    by_cases h : gn = name
    · subst h
      simp [sortGroups, cacheGet_cons, ih]
    · have hb : (gn == name) = false := by simpa using h
      simp only [sortGroups, List.map_cons, cacheGet_cons, hb, Bool.false_eq_true, if_false]
      exact ih

/-- First of two sentiment rows sharing (name "A", year 2020). -/
def dupRow1 : SentimentRow := ⟨"A", some 2020, some 1, "", "", none⟩

/-- Second row with the same (name, year) but a different sentiment. -/
def dupRow2 : SentimentRow := ⟨"A", some 2020, some 0, "", "", none⟩

end SentimentService

/-- C6 counterexample: loading two rows with the same (name, year) keeps
both points — the stored sequence for `"A"` has two year-2020 entries, so
it is not strictly ascending by year, and the duplicates were neither
deduplicated nor rejected nor summed. -/
theorem C6_counterexample_duplicate_year_kept :
    SentimentService.initializeSentimentCache
        (some [SentimentService.dupRow1, SentimentService.dupRow2]) =
      some [("A", [⟨2020, 10, "", "", none⟩, ⟨2020, 0, "", "", none⟩])] ∧
    ¬ List.Chain' (fun p q : SentimentDataPoint => p.x < q.x)
        [⟨2020, 10, "", "", none⟩, ⟨2020, 0, "", "", none⟩] := by
  constructor
  · have h1 : SentimentService.processRow SentimentService.dupRow1 =
        some ("A", ⟨2020, 10, "", "", none⟩) := by
      norm_num [SentimentService.processRow, SentimentService.dupRow1, jsTrim,
        dropLeadingWs, isWsChar]
      decide
    have h2 : SentimentService.processRow SentimentService.dupRow2 =
        some ("A", ⟨2020, 0, "", "", none⟩) := by
      norm_num [SentimentService.processRow, SentimentService.dupRow2, jsTrim,
        dropLeadingWs, isWsChar]
      decide
    simp [SentimentService.initializeSentimentCache, SentimentService.buildGroups, h1, h2,
      SentimentService.addToGroup, SentimentService.sortGroups, List.insertionSort,
      List.orderedInsert, SentimentService.yearLE]
  · simp [List.chain'_cons]

/-- C6 (amended): each stored sentiment sequence is sorted non-decreasing
(not strictly ascending) by year, and it is a permutation of exactly the
valid input rows for that name — rows sharing a (name, year) are all
retained, neither deduplicated, rejected nor summed.  (The trends index
gives no ordering guarantee at all: decoded series are stored as-is.) -/
theorem C6_amended_nondecreasing_and_duplicates_kept (rows : List SentimentRow)
    (name : String) :
    SentimentService.initializeSentimentCache (some rows) =
      some (SentimentService.sortGroups (SentimentService.buildGroups rows)) ∧
    List.Sorted SentimentService.yearLE
      (SentimentService.cacheGet
        (SentimentService.sortGroups (SentimentService.buildGroups rows)) name) ∧
    List.Perm
      (SentimentService.cacheGet
        (SentimentService.sortGroups (SentimentService.buildGroups rows)) name)
      (SentimentService.rowPointsFor rows name) := by
  refine ⟨rfl, ?_, ?_⟩
  · rw [SentimentService.cacheGet_sortGroups]
    exact List.sorted_insertionSort _ _
  · rw [SentimentService.cacheGet_sortGroups, SentimentService.cacheGet_buildGroups]
    exact List.perm_insertionSort _ _

/-- C7 counterexample: total fetch failure and a successful load of an
empty file leave byte-for-byte identical module states (`some []`, an
empty but present cache) in both loaders — there is no distinguishable
"unavailable" signal. -/
theorem C7_counterexample_unavailable_indistinguishable :
    SentimentService.initializeSentimentCache none =
        SentimentService.initializeSentimentCache (some []) ∧
    TrendsService.initializeTrendsCache none =
        TrendsService.initializeTrendsCache (some []) :=
  ⟨rfl, rfl⟩

/-- C7 (amended): when no candidate location resolves, the loader yields an
empty dataset with NO distinguishable signal: the resulting cache state is
identical to that of a successful load of an empty file, and every query
(series fetch, extreme titles, grade) returns the same answer in the two
states, so callers cannot tell "unreachable" from "loaded but empty". -/
theorem C7_amended_no_unavailable_signal (name : String) (count : Nat) :
    SentimentService.initializeSentimentCache none = some [] ∧
    SentimentService.initializeSentimentCache (some []) = some [] ∧
    TrendsService.initializeTrendsCache none = some [] ∧
    TrendsService.initializeTrendsCache (some []) = some [] ∧
    SentimentService.fetchSentimentData
        (SentimentService.initializeSentimentCache none) name = [] ∧
    SentimentService.fetchSentimentData
        (SentimentService.initializeSentimentCache (some [])) name = [] ∧
    SentimentService.getExtremeSentimentTitles
        (SentimentService.initializeSentimentCache none) name count =
      SentimentService.getExtremeSentimentTitles
        (SentimentService.initializeSentimentCache (some [])) name count ∧
    SentimentService.calculatePublicSentimentGrade
        (SentimentService.initializeSentimentCache none) name =
      SentimentService.calculatePublicSentimentGrade
        (SentimentService.initializeSentimentCache (some [])) name := by
  have hfb : SentimentService.findBestMatch [] name = none := by
    simp [SentimentService.findBestMatch, exactMatchStage, reversedMatchStage,
      subsetMatchStage, firstSome]
  refine ⟨rfl, rfl, rfl, rfl, ?_, ?_, ?_, ?_⟩
  · simp [SentimentService.fetchSentimentData, SentimentService.initializeSentimentCache, hfb]
  · simp [SentimentService.fetchSentimentData, SentimentService.initializeSentimentCache,
      SentimentService.buildGroups, SentimentService.sortGroups, hfb]
  · rfl
  · rfl

/-- C8 counterexample: after a failed load the cache is a permanent empty
map, so a later initialization call performs no retry even when the data
would now be available — the claimed "pending state is cleared so a later
call retries" does not hold; the load counter stays at 1 and the cache
stays empty. -/
theorem C8_counterexample_no_retry_after_failure :
    initStep TrendsService.initializeTrendsCache ⟨none, 0⟩ none =
      (⟨some [], 1⟩ : LoaderState (List (String × List TrendDataPoint))) ∧
    initStep TrendsService.initializeTrendsCache ⟨some [], 1⟩
        (some [⟨"A", some "[\x7b\"x\":2020,\"y\":50\x7d]"⟩]) =
      (⟨some [], 1⟩ : LoaderState (List (String × List TrendDataPoint))) ∧
    initStep SentimentService.initializeSentimentCache ⟨none, 0⟩ none =
      (⟨some [], 1⟩ : LoaderState (List (String × List SentimentDataPoint))) ∧
    initStep SentimentService.initializeSentimentCache ⟨some [], 1⟩
        (some [⟨"B", some 2021, some 1, "", "", none⟩]) =
      (⟨some [], 1⟩ : LoaderState (List (String × List SentimentDataPoint))) :=
  ⟨rfl, rfl, rfl, rfl⟩

/-- Helper: an `initStep` whose builder always yields a (possibly empty)
cache is absorbed by a preceding `initStep`: the second call is a no-op. -/
theorem initStep_absorb (build : Option ρ → Option κ)
    (hb : ∀ o, (build o).isSome = true) (s : LoaderState κ) (o o' : Option ρ) :
    initStep build (initStep build s o) o' = initStep build s o := by
  unfold initStep
  by_cases h : s.cache.isSome
  · simp [h]
  · simp [h, hb o]

/-- Helper: one initialization performs at most one load. -/
theorem initStep_loads_le (build : Option ρ → Option κ) (s : LoaderState κ)
    (o : Option ρ) : (initStep build s o).loads ≤ s.loads + 1 := by
  unfold initStep
  by_cases h : s.cache.isSome <;> simp [h]

/-- C8 (amended): initialization is sequentially idempotent — a second
invocation of either loader is a no-op (same state, no further
fetch-and-parse) and any single invocation performs at most one load; but
there is no shared in-flight load and no recovery: a failed load leaves a
permanently-set empty cache that no later call retries. -/
theorem C8_amended_idempotent_but_no_retry
    (s : LoaderState (List (String × List TrendDataPoint)))
    (o o' : Option (List TrendsRow))
    (t : LoaderState (List (String × List SentimentDataPoint)))
    (u u' : Option (List SentimentRow)) :
    initStep TrendsService.initializeTrendsCache
        (initStep TrendsService.initializeTrendsCache s o) o' =
      initStep TrendsService.initializeTrendsCache s o ∧
    (initStep TrendsService.initializeTrendsCache s o).loads ≤ s.loads + 1 ∧
    initStep SentimentService.initializeSentimentCache
        (initStep SentimentService.initializeSentimentCache t u) u' =
      initStep SentimentService.initializeSentimentCache t u ∧
    (initStep SentimentService.initializeSentimentCache t u).loads ≤ t.loads + 1 := by
  refine ⟨initStep_absorb _ ?_ s o o', initStep_loads_le _ s o,
    initStep_absorb _ ?_ t u u', initStep_loads_le _ t u⟩
  · intro oc; cases oc <;> rfl
  · intro oc; cases oc <;> rfl

/-- Double every double-quote character (CSV-style quote escaping). -/
def doubleQuotesCL : List Char → List Char
  | [] => []
  | c :: rest => if c = '"' then '"' :: '"' :: doubleQuotesCL rest else c :: doubleQuotesCL rest

/-- Modelled from the claim's input format: a JSON cell double-escaped the
CSV way — every double-quote doubled and the whole cell wrapped in
double-quotes. -/
def doubleEscapeCell (s : String) : String :=
  String.mk ('"' :: (doubleQuotesCL s.data ++ ['"']))

theorem dropLeadingWs_quote_cons (l : List Char) :
    dropLeadingWs ('"' :: l) = '"' :: l := by
  simp [dropLeadingWs, isWsChar, show ('"'.isWhitespace) = false by decide]

/-- A quote-wrapped cell is untouched by `trim`. -/
theorem jsTrim_quoted (mid : List Char) :
    jsTrim (String.mk ('"' :: (mid ++ ['"']))) = String.mk ('"' :: (mid ++ ['"'])) := by
  unfold jsTrim
  have h1 : ('"' :: (mid ++ ['"'])).reverse = '"' :: (mid.reverse ++ ['"']) := by
    simp
  show String.mk (dropLeadingWs ((dropLeadingWs ('"' :: (mid ++ ['"'])).reverse).reverse)) = _
  rw [h1, dropLeadingWs_quote_cons]
  rw [show ('"' :: (mid.reverse ++ ['"'])).reverse = '"' :: (mid ++ ['"']) by simp]
  rw [dropLeadingWs_quote_cons]

theorem mem_doubleQuotesCL {c : Char} : ∀ {l : List Char},
    c ∈ doubleQuotesCL l → c ∈ l ∨ c = '"' := by
  intro l
  induction l with
  | nil => intro h; simp [doubleQuotesCL] at h
  | cons d rest ih =>
    intro h
    by_cases hd : d = '"'
    · subst hd
      simp [doubleQuotesCL] at h
      rcases h with h | h
      · exact Or.inr h
      · rcases ih h with h' | h'
        · exact Or.inl (List.mem_cons_of_mem _ h')
        · exact Or.inr h'
    · simp [doubleQuotesCL, hd] at h
      rcases h with h | h
      · exact Or.inl (h ▸ List.mem_cons_self _ _)
      · rcases ih h with h' | h'
        · exact Or.inl (List.mem_cons_of_mem _ h')
        · exact Or.inr h'

/-- A global two-character replacement whose pattern's first character is
absent leaves the list unchanged. -/
theorem replace2_id_of_not_mem (a b : Char) (rep : List Char) :
    ∀ (l : List Char), a ∉ l → replace2 a b rep l = l := by
  intro l
  induction l with
  | nil => intro _; rfl
  | cons c rest ih =>
    intro h
    have hca : ¬(c = a) := fun e => h (e ▸ List.mem_cons_self c rest)
    cases rest with
    | nil => rfl
    | cons d rest' =>
      have hrest : a ∉ d :: rest' := fun hm => h (List.mem_cons_of_mem _ hm)
      have hfalse : (decide (c = a) && decide (d = b)) = false := by
        simp [hca]
      simp only [replace2, hfalse, Bool.false_eq_true, if_false]
      rw [ih hrest]

/-- Collapsing doubled quotes (`s.replace(/""/g, '"')`) exactly undoes the
CSV quote doubling. -/
theorem collapse_doubleQuotes : ∀ (l : List Char),
    replace2 '"' '"' ['"'] (doubleQuotesCL l) = l := by
  intro l
  induction l with
  | nil => rfl
  | cons c rest ih =>
    by_cases hc : c = '"'
    · subst hc
      simp only [doubleQuotesCL, if_pos rfl]
      cases hq : doubleQuotesCL rest with
      | nil =>
        have hrest : ([] : List Char) = rest := by
          have h2 := ih
          rw [hq] at h2
          simpa [replace2] using h2
        rw [← hrest]
        decide
      | cons e t =>
        show replace2 '"' '"' ['"'] ('"' :: '"' :: e :: t) = '"' :: rest
        have hcond : (decide ('"' = '"') && decide ('"' = '"')) = true := by decide
        simp only [replace2, hcond, if_true]
        rw [← hq, ih]
        rfl
    · simp only [doubleQuotesCL, if_neg hc]
      cases hq : doubleQuotesCL rest with
      | nil =>
        have hrest : ([] : List Char) = rest := by
          have h2 := ih
          rw [hq] at h2
          simpa [replace2] using h2
        rw [← hrest]
        simp [replace2]
      | cons e t =>
        show replace2 '"' '"' ['"'] (c :: e :: t) = c :: rest
        have hcond : (decide (c = '"') && decide (e = '"')) = false := by
          simp [hc]
        simp only [replace2, hcond, Bool.false_eq_true, if_false]
        rw [← hq, ih]

/-- C9: any backslash-free JSON point cell that parses to `pts`, once
double-escaped (quotes doubled, cell quote-wrapped), is still decoded to
`pts` by the loader's pipeline; and a row whose cell fails every decode
attempt is stored with an empty series while the remaining rows load
normally. -/
theorem C9_double_escaped_cell_recovered (jd : List Char) (pts : List TrendDataPoint)
    (hparse : parsePointsJson (String.mk jd) = some pts)
    (hnb : '\\' ∉ jd) :
    TrendsService.decodeTrendsCell (doubleEscapeCell (String.mk jd)) = some pts ∧
    TrendsService.initializeTrendsCache
        (some [⟨"Bad", some "oops"⟩, ⟨"Good", some "[\x7b\"x\":2020,\"y\":50\x7d]"⟩]) =
      some [("Bad", []), ("Good", [⟨2020, 50⟩])] := by
  refine ⟨?_, by decide⟩
  have hdq : '\\' ∉ doubleQuotesCL jd := by
    intro hm
    rcases mem_doubleQuotesCL hm with h | h
    · exact hnb h
    · exact absurd h (by decide)
  have h1 : jsTrim (doubleEscapeCell (String.mk jd)) =
      String.mk ('"' :: (doubleQuotesCL jd ++ ['"'])) := jsTrim_quoted _
  have hhead : ('"' :: (doubleQuotesCL jd ++ ['"'])).head? = some '"' := rfl
  have hlastq : ('"' :: (doubleQuotesCL jd ++ ['"'])).getLast? = some '"' := by
    rw [← List.cons_append, List.getLast?_concat]
  have hslice : (('"' :: (doubleQuotesCL jd ++ ['"'])).drop 1).dropLast =
      doubleQuotesCL jd := by
    simp [List.dropLast_concat]
  unfold TrendsService.decodeTrendsCell
  rw [h1]
  show (match parsePointsJson (String.mk
      (replace2 '"' '"' ['"'] (replace2 '\\' '"' ['"']
        (if ('"' :: (doubleQuotesCL jd ++ ['"'])).head? = some '"' &&
            ('"' :: (doubleQuotesCL jd ++ ['"'])).getLast? = some '"' then
          (('"' :: (doubleQuotesCL jd ++ ['"'])).drop 1).dropLast
        else '"' :: (doubleQuotesCL jd ++ ['"']))))) with
    | some trendsData => some trendsData
    | none => _) = some pts
  rw [if_pos (by rw [hhead, hlastq]; decide)]
  rw [hslice, replace2_id_of_not_mem _ _ _ _ hdq, collapse_doubleQuotes]
  rw [hparse]

/-- C9 witness: the theorem applied to the claim's concrete cell, whose
double-escaped form decodes back to `[(2020, 50)]`. -/
theorem C9_double_escaped_cell_recovered_witness :
    TrendsService.decodeTrendsCell
        (doubleEscapeCell "[\x7b\"x\":2020,\"y\":50\x7d]") = some [⟨2020, 50⟩] ∧
    TrendsService.initializeTrendsCache
        (some [⟨"Bad", some "oops"⟩, ⟨"Good", some "[\x7b\"x\":2020,\"y\":50\x7d]"⟩]) =
      some [("Bad", []), ("Good", [⟨2020, 50⟩])] :=
  C9_double_escaped_cell_recovered ("[\x7b\"x\":2020,\"y\":50\x7d]".data)
    [⟨2020, 50⟩] (by decide) (by decide)

/-- C10: the extreme-articles query returns at most `count` items; every
returned item comes from the matched celebrity's stored points, carries
that point's non-empty title and its present (hence numeric) extreme
score; and the items are ordered by non-decreasing distance of the
score's absolute value from 1, most extreme first. -/
theorem C10_extreme_titles_bounded_sourced_sorted
    (cacheState : Option (List (String × List SentimentDataPoint)))
    (name : String) (count : Nat) :
    (SentimentService.getExtremeSentimentTitles cacheState name count).length ≤ count ∧
    (∀ it ∈ SentimentService.getExtremeSentimentTitles cacheState name count,
      ∃ cache best p,
        cacheState = some cache ∧
        SentimentService.findBestMatch (cache.map Prod.fst) name = some best ∧
        p ∈ SentimentService.cacheGet cache best ∧
        p.title ≠ "" ∧ p.extremeScore = some it.score ∧
        it = ⟨p.x, p.title, it.score, p.link⟩) ∧
    List.Pairwise
      (fun a b : SentimentService.ExtremeSentimentItem =>
        abs (abs a.score - 1) ≤ abs (abs b.score - 1))
      (SentimentService.getExtremeSentimentTitles cacheState name count) := by
  cases cacheState with
  | none => simp [SentimentService.getExtremeSentimentTitles]
  | some cache =>
    cases hm : SentimentService.findBestMatch (cache.map Prod.fst) name with
    | none => simp [SentimentService.getExtremeSentimentTitles, hm]
    | some best =>
      have hexp : SentimentService.getExtremeSentimentTitles (some cache) name count =
          ((List.insertionSort SentimentService.extremeDistLE
            ((SentimentService.cacheGet cache best).filter
              (fun p => p.title ≠ "" && p.extremeScore.isSome))).take count).map
            (fun p => ⟨p.x, p.title, p.extremeScore.getD 0, p.link⟩) := by
        simp [SentimentService.getExtremeSentimentTitles, hm]
      refine ⟨?_, ?_, ?_⟩
      · rw [hexp]
        simp
      · intro it hit
        rw [hexp] at hit
        obtain ⟨p, hp, hfp⟩ := List.mem_map.mp hit
        have hp2 : p ∈ List.insertionSort SentimentService.extremeDistLE
            ((SentimentService.cacheGet cache best).filter
              (fun p => p.title ≠ "" && p.extremeScore.isSome)) :=
          List.take_subset _ _ hp
        have hp3 : p ∈ (SentimentService.cacheGet cache best).filter
            (fun p => p.title ≠ "" && p.extremeScore.isSome) :=
          (List.perm_insertionSort _ _).subset hp2
        have hp4 := List.mem_filter.mp hp3
        have hp5 : p.title ≠ "" ∧ p.extremeScore.isSome := by
          have h := hp4.2
          simpa using h
        obtain ⟨e, he⟩ := Option.isSome_iff_exists.mp hp5.2
        subst hfp
        refine ⟨cache, best, p, rfl, hm, hp4.1, hp5.1, ?_, rfl⟩
        show p.extremeScore = some (p.extremeScore.getD 0)
        rw [he]
        rfl
      · rw [hexp]
        rw [List.pairwise_map]
        have hs : List.Pairwise SentimentService.extremeDistLE
            (List.insertionSort SentimentService.extremeDistLE
              ((SentimentService.cacheGet cache best).filter
                (fun p => p.title ≠ "" && p.extremeScore.isSome))) :=
          List.sorted_insertionSort _ _
        exact (hs.sublist (List.take_sublist _ _))

namespace SentimentService

/-- A cache with three titled points of extreme scores 1, 0 and -1, used
to witness the extreme-titles query (distances from ±1: 0, 1, 0). -/
def extremeCache : List (String × List SentimentDataPoint) :=
  [("A", [⟨2020, 1, "t1", "l1", some 1⟩, ⟨2021, 2, "t2", "l2", some 0⟩,
          ⟨2022, 3, "t3", "l3", some (-1)⟩])]

end SentimentService

/-- C10 witness: the theorem at the concrete cache, plus the evaluated
query — the two most extreme items (scores 1 and -1, in stable order)
come back first, and the middling score 0 is cut off. -/
theorem C10_extreme_titles_bounded_sourced_sorted_witness :
    (SentimentService.getExtremeSentimentTitles
      (some SentimentService.extremeCache) "A" 2).length ≤ 2 ∧
    SentimentService.getExtremeSentimentTitles
        (some SentimentService.extremeCache) "A" 2 =
      [⟨2020, "t1", 1, "l1"⟩, ⟨2022, "t3", -1, "l3"⟩] := by
  refine ⟨(C10_extreme_titles_bounded_sourced_sorted
    (some SentimentService.extremeCache) "A" 2).1, ?_⟩
  have hm : SentimentService.findBestMatch ["A"] "A" = some "A" := by decide
  norm_num [SentimentService.getExtremeSentimentTitles, hm,
    SentimentService.extremeCache, SentimentService.cacheGet, List.find?,
    List.insertionSort, List.orderedInsert, SentimentService.extremeDistLE,
    SentimentService.extremeDist, List.filter_cons, List.take_cons]
